import Mathlib

/-!
Shallow embedding of the mission-dispatch workflow of the drone-x-alert-now
repository: the `emergency_requests`, `rescue_teams`, `rescue_missions` and
`user_roles` rows, the client-side update operations found in
`src/components/RescueMissions.tsx`, `src/components/DroneCamera.tsx`,
`src/components/TeamLocationTracker.tsx`, `src/pages/AdminAuth.tsx` and
`src/pages/RescueTeamAuth.tsx`, and a model (from the design spec) of the
server-side `auto_assign_rescue_team` stored procedure whose body is not in
the repository.  Timestamps are abstract strings passed in as a `now`
parameter; coordinates are rationals; statuses are the literal strings the
code uses.
-/

namespace DroneX

/-- Row of the `emergency_requests` table (column list from the generated
database types in the repository). -/
structure EmergencyRequest where
  id : String
  user_id : String
  emergency_type : String
  description : Option String
  latitude : Option Rat
  longitude : Option Rat
  priority : String
  status : String
  created_at : String
  updated_at : String
  deriving DecidableEq

/-- Row of the `rescue_teams` table. -/
structure RescueTeam where
  id : String
  user_id : String
  team_name : String
  specialization : Option String
  status : String
  current_latitude : Option Rat
  current_longitude : Option Rat
  contact_phone : Option String
  contact_email : Option String
  created_at : String
  updated_at : String
  deriving DecidableEq

/-- Row of the `rescue_missions` table. -/
structure RescueMission where
  id : String
  emergency_request_id : String
  rescue_team_id : String
  assigned_by : Option String
  status : String
  priority : String
  estimated_arrival : Option String
  actual_arrival : Option String
  completion_time : Option String
  notes : Option String
  created_at : String
  updated_at : String
  deriving DecidableEq

/-- Row of the `user_roles` table. -/
structure UserRole where
  id : String
  user_id : String
  role : String
  created_at : String
  deriving DecidableEq

/-- The database state seen by the client: the three tables of the dispatch
workflow. -/
structure DBState where
  requests : List EmergencyRequest
  teams : List RescueTeam
  missions : List RescueMission
  deriving DecidableEq

/-- JavaScript truthiness of an optional string field: `undefined`, `null`
and the empty string are falsy, every other string is truthy. -/
def jsTruthy : Option String → Bool
  | none => false
  | some s => s ≠ ""

/-- The `updates` record of `updateMissionStatus` applied to one matching
row: always `status` and `updated_at`, plus `actual_arrival` when
`stampArrival` was computed, plus `completion_time` when the new status is
`completed`. -/
def applyMissionUpdates (stampArrival : Bool) (stat now : String)
    (m : RescueMission) : RescueMission :=
  let m1 := { m with status := stat, updated_at := now }
  let m2 := if stampArrival then { m1 with actual_arrival := some now } else m1
  if stat == "completed" then { m2 with completion_time := some now } else m2

/-- Embeds `updateMissionStatus` from `src/components/RescueMissions.tsx`
(lines 78-114): it builds one `updates` record containing `status` and
`updated_at`, adds `actual_arrival` when the new status is `in_progress` and
the cached mission has a falsy `actual_arrival`, adds `completion_time` when
the new status is `completed`, and applies the record to every
`rescue_missions` row whose `id` equals `missionId`. -/
def updateMissionStatus (missions : List RescueMission) (missionId stat now : String) :
    List RescueMission :=
  let stampArrival : Bool :=
    stat == "in_progress"
      && !(jsTruthy ((missions.find? (fun m => m.id == missionId)).bind
            (fun m => m.actual_arrival)))
  missions.map (fun m =>
    if m.id == missionId then applyMissionUpdates stampArrival stat now m else m)

/-- Embeds `addNotes` from `src/components/RescueMissions.tsx` (lines
116-144): updates `notes` and `updated_at` on the row whose `id` equals
`missionId`. -/
def addNotes (missions : List RescueMission) (missionId notes now : String) :
    List RescueMission :=
  missions.map (fun m =>
    if m.id == missionId then { m with notes := some notes, updated_at := now } else m)

/-- Embeds `updateEmergencyStatus` from `src/components/DroneCamera.tsx`
(lines 260-286): sets `status` and `updated_at` on the `emergency_requests`
row whose `id` equals `emergencyId`. -/
def updateEmergencyStatus (requests : List EmergencyRequest) (emergencyId stat now : String) :
    List EmergencyRequest :=
  requests.map (fun e =>
    if e.id == emergencyId then { e with status := stat, updated_at := now } else e)

/-- The rescue-team mission transition as it acts on the whole database
state: `updateMissionStatus` in `RescueMissions.tsx` issues a single update
on the `rescue_missions` table and writes to no other table. -/
def updateMissionStatusDB (s : DBState) (missionId stat now : String) : DBState :=
  { s with missions := updateMissionStatus s.missions missionId stat now }

/-- Embeds `updateTeamLocation` from `src/components/TeamLocationTracker.tsx`
(lines 73-90): overwrites `current_latitude`, `current_longitude` and
`updated_at` on the `rescue_teams` row whose `id` equals `teamId`. -/
def updateTeamLocation (teams : List RescueTeam) (teamId : String) (lat lng : Rat)
    (now : String) : List RescueTeam :=
  teams.map (fun t =>
    if t.id == teamId then
      { t with current_latitude := some lat, current_longitude := some lng,
               updated_at := now }
    else t)

/-- Embeds the Active badge computation of the `RescueMissions` component
(line 175): `missions.filter(m => m.status !== completed).length`. -/
def activeMissionCount (missions : List RescueMission) : Nat :=
  (missions.filter (fun m => m.status != "completed")).length

/-- Embeds `roles?.some(r => r.role === admin)` from `AdminAuth.tsx`
(line 49), over the list of fetched `role` column values. -/
def hasAdminRole (roles : List String) : Bool :=
  roles.any (fun r => r == "admin")

/-- Embeds the retry loop of `checkAdminRoleWithRetry` from
`src/pages/AdminAuth.tsx` (lines 27-67).  `outcomes i` is the result of the
`user_roles` query on attempt `i` (an error, or the list of `role` values);
`fuel` is the number of attempts still allowed, so the original condition
`i === retries - 1` (last attempt) becomes `fuel = 0` after consuming one
unit.  An error ends the loop only on the last attempt; a fetched role list
containing `admin` returns `true` at once; otherwise the loop continues and
returns `false` when the attempts are exhausted. -/
def checkAdminLoop (outcomes : Nat → Except Unit (List String)) :
    Nat → Nat → Except Unit Bool
  | 0, _ => Except.ok false
  | fuel+1, i =>
    match outcomes i with
    | Except.error e =>
        if fuel == 0 then Except.error e else checkAdminLoop outcomes fuel (i+1)
    | Except.ok roles =>
        if hasAdminRole roles then Except.ok true
        else checkAdminLoop outcomes fuel (i+1)

/-- Embeds `checkAdminRoleWithRetry` with its default `retries = 3`. -/
def checkAdminRoleWithRetry (outcomes : Nat → Except Unit (List String)) :
    Except Unit Bool :=
  checkAdminLoop outcomes 3 0

/-- Whether one attempt outcome observed a row with role `admin`. -/
def oksAdmin : Except Unit (List String) → Bool
  | Except.ok roles => hasAdminRole roles
  | Except.error _ => false

/-- Embeds `updateUserRole` from `src/pages/RescueTeamAuth.tsx` (lines
490-522): first deletes every `user_roles` row of the user (the delete
result is not even checked in the source), then inserts one new row with the
new role.  `insertOk` says whether the insert round trip succeeds; on
failure the rows removed by the delete are not restored. -/
def updateUserRole (roles : List UserRole) (userId newRole newId now : String)
    (insertOk : Bool) : List UserRole :=
  let afterDelete := roles.filter (fun r => !(r.user_id == userId))
  if insertOk then
    afterDelete ++ [{ id := newId, user_id := userId, role := newRole, created_at := now }]
  else afterDelete

/-- Squared planar distance between two coordinate pairs. -/
def dist2 (lat1 lng1 lat2 lng2 : Rat) : Rat :=
  (lat1 - lat2) * (lat1 - lat2) + (lng1 - lng2) * (lng1 - lng2)

/-- Distance from a request location to a team, when the team has coordinates. -/
def teamDist (lat lng : Rat) (t : RescueTeam) : Option Rat :=
  match t.current_latitude, t.current_longitude with
  | some a, some b => some (dist2 lat lng a b)
  | _, _ => none

/-- Whether team `t` ranks strictly closer to the request than team `u`:
teams with known coordinates rank before teams without. -/
def closerTeam (lat lng : Rat) (t u : RescueTeam) : Bool :=
  match teamDist lat lng t, teamDist lat lng u with
  | some d, some d2 => d < d2
  | some _, none => true
  | none, _ => false

/-- One step of the proximity argmin scan over the eligible teams. -/
def pickStep (lat lng : Rat) (acc : Option RescueTeam) (t : RescueTeam) :
    Option RescueTeam :=
  match acc with
  | none => some t
  | some u => if closerTeam lat lng t u then some t else some u

/-- Modelled from the spec: the selection policy of the server-side
`auto_assign_rescue_team` procedure, whose body is not in the repository.
Among the eligible teams, pick one by proximity to the request coordinates
when both are known, otherwise by first-available tie-break. -/
def pickTeam (e : EmergencyRequest) (teams : List RescueTeam) : Option RescueTeam :=
  match e.latitude, e.longitude with
  | some lat, some lng => teams.foldl (pickStep lat lng) none
  | _, _ => teams.head?

/-- The `rescue_missions` row created by the assignment procedure: status
`assigned`, priority copied from the request, timestamps taken at creation. -/
def newMission (missionId eid teamId priority now : String) : RescueMission :=
  { id := missionId, emergency_request_id := eid, rescue_team_id := teamId,
    assigned_by := none, status := "assigned", priority := priority,
    estimated_arrival := none, actual_arrival := none, completion_time := none,
    notes := none, created_at := now, updated_at := now }

/-- Modelled from the spec: the server-side stored procedure
`auto_assign_rescue_team(emergency_id)`, absent from the repository (only
its RPC declaration and the call site in `DroneCamera.tsx` lines 288-317
exist).  Per the spec it must reference an existing request with status
`pending` (otherwise it fails, leaving the state unchanged and returning an
empty result), filter the `rescue_teams` rows where status is `available`,
pick one eligible team, and atomically create one `assigned` mission for the
request while transitioning the request to `assigned`; with no eligible
team it returns an empty result and changes nothing. -/
def auto_assign_rescue_team (now missionId eid : String) (s : DBState) :
    Option String × DBState :=
  match s.requests.find? (fun r => r.id == eid) with
  | none => (none, s)
  | some e =>
    if e.status != "pending" then (none, s)
    else
      match pickTeam e (s.teams.filter (fun t => t.status == "available")) with
      | none => (none, s)
      | some t =>
          (some t.id,
           { requests := updateEmergencyStatus s.requests eid "assigned" now,
             teams := s.teams,
             missions := s.missions ++ [newMission missionId eid t.id e.priority now] })

/-! Concrete fixture rows and states used to evaluate the operations. -/

/-- Fixture: an available rescue team with no reported coordinates. -/
def wTeam1 : RescueTeam :=
  { id := "t1", user_id := "u1", team_name := "Alpha", specialization := none,
    status := "available", current_latitude := none, current_longitude := none,
    contact_phone := none, contact_email := none, created_at := "T0", updated_at := "T0" }

/-- Fixture: a busy rescue team, not eligible for assignment. -/
def wTeamBusy : RescueTeam :=
  { id := "t2", user_id := "u3", team_name := "Bravo", specialization := none,
    status := "busy", current_latitude := none, current_longitude := none,
    contact_phone := none, contact_email := none, created_at := "T0", updated_at := "T0" }

/-- Fixture: a pending emergency request without coordinates. -/
def wReq1 : EmergencyRequest :=
  { id := "e1", user_id := "u2", emergency_type := "flood", description := none,
    latitude := none, longitude := none, priority := "high", status := "pending",
    created_at := "T0", updated_at := "T0" }

/-- Fixture: a database state with one pending request, one busy and one
available team, and no missions. -/
def wState : DBState :=
  { requests := [wReq1], teams := [wTeamBusy, wTeam1], missions := [] }

/-- Fixture: the database state produced by the modelled assignment
operation on `wState`. -/
def wAssigned : DBState := (auto_assign_rescue_team "T" "m9" "e1" wState).2

/-- Fixture: an assigned mission with no arrival stamp yet. -/
def wM1 : RescueMission :=
  { id := "m1", emergency_request_id := "e1", rescue_team_id := "t1",
    assigned_by := none, status := "assigned", priority := "high",
    estimated_arrival := none, actual_arrival := none, completion_time := none,
    notes := none, created_at := "T0", updated_at := "T0" }

/-- Fixture: an in-progress mission that already carries a completion stamp,
to exhibit the overwrite on a repeated completion. -/
def wM2 : RescueMission :=
  { id := "m2", emergency_request_id := "e1", rescue_team_id := "t1",
    assigned_by := none, status := "in_progress", priority := "high",
    estimated_arrival := none, actual_arrival := some "T1", completion_time := some "OLD",
    notes := none, created_at := "T0", updated_at := "T1" }

/-- Fixture: an emergency request already in status `assigned`, referenced by
the fixture mission `wM1`. -/
def cE1 : EmergencyRequest :=
  { id := "e1", user_id := "u2", emergency_type := "flood", description := none,
    latitude := none, longitude := none, priority := "high", status := "assigned",
    created_at := "T0", updated_at := "T0" }

/-- Fixture: a database state holding `cE1` and its assigned mission `wM1`. -/
def cState : DBState :=
  { requests := [cE1], teams := [], missions := [wM1] }

/-- Fixture: a cancelled mission, used for the active-count property. -/
def wMCancelled : RescueMission :=
  { id := "m3", emergency_request_id := "e2", rescue_team_id := "t1",
    assigned_by := none, status := "cancelled", priority := "low",
    estimated_arrival := none, actual_arrival := none, completion_time := none,
    notes := none, created_at := "T0", updated_at := "T0" }

/-- Fixture: an existing role row of user `u9`. -/
def wRole1 : UserRole :=
  { id := "r1", user_id := "u9", role := "user", created_at := "T0" }

/-! Helper lemmas shared by the claim theorems. -/

/-- Mapping a function that preserves the search predicate maps the result
of `find?`. -/
theorem find?_map_pres {α : Type} (p : α → Bool) (g : α → α)
    (hp : ∀ a, p (g a) = p a) :
    ∀ (l : List α) (a : α), l.find? p = some a → (l.map g).find? p = some (g a) := by
  intro l
  induction l with
  | nil => intro a h; simp at h
  | cons b t ih =>
    intro a h
    by_cases hb : p b = true
    · rw [List.find?_cons_of_pos t hb] at h
      cases h
      simpa using List.find?_cons_of_pos (t.map g) ((hp b).trans hb)
    · rw [List.find?_cons_of_neg t (by simpa using hb)] at h
      have hgb : ¬ p (g b) = true := by rw [hp b]; exact hb
      simpa [List.find?_cons_of_neg (t.map g) (by simpa using hgb)] using ih a h

/-- The argmin scan of the assignment model only ever returns the
accumulator or a member of the scanned list. -/
theorem foldl_pickStep_mem (lat lng : Rat) :
    ∀ (l : List RescueTeam) (acc : Option RescueTeam) (t : RescueTeam),
      l.foldl (pickStep lat lng) acc = some t → acc = some t ∨ t ∈ l := by
  intro l
  induction l with
  | nil => intro acc t h; exact Or.inl h
  | cons b l2 ih =>
    intro acc t h
    rcases ih (pickStep lat lng acc b) t h with h2 | h2
    · cases acc with
      | none =>
        simp [pickStep] at h2
        exact Or.inr (by simp [h2])
      | some u =>
        simp only [pickStep] at h2
        by_cases hc : closerTeam lat lng b u = true
        · rw [if_pos hc] at h2
          exact Or.inr (by simp at h2; simp [h2])
        · rw [if_neg hc] at h2
          exact Or.inl h2
    · exact Or.inr (List.mem_cons_of_mem b h2)

/-- A team returned by the selection policy is a member of the eligible list. -/
theorem pickTeam_mem (e : EmergencyRequest) (teams : List RescueTeam)
    (t : RescueTeam) (h : pickTeam e teams = some t) : t ∈ teams := by
  unfold pickTeam at h
  cases hlat : e.latitude with
  | none =>
    rw [hlat] at h
    cases teams with
    | nil => simp at h
    | cons b l => simp at h; simp [h]
  | some lat =>
    cases hlng : e.longitude with
    | none =>
      rw [hlat, hlng] at h
      cases teams with
      | nil => simp at h
      | cons b l => simp at h; simp [h]
    | some lng =>
      rw [hlat, hlng] at h
      rcases foldl_pickStep_mem lat lng teams none t h with h2 | h2
      · cases h2
      · exact h2

/-- The applied mission updates never change the row id. -/
theorem applyMissionUpdates_id (b : Bool) (stat now : String) (m : RescueMission) :
    (applyMissionUpdates b stat now m).id = m.id := by
  unfold applyMissionUpdates
  by_cases hb : b = true <;> by_cases hc : (stat == "completed") = true <;>
    simp [hb, hc]

/-- Finding the addressed row after a mission status update returns that row
with the updates record applied; the arrival stamp is decided from the
addressed row's current `actual_arrival`. -/
theorem updateMissionStatus_find?_eq (missions : List RescueMission)
    (missionId stat now : String) (m : RescueMission)
    (hfind : missions.find? (fun x => x.id == missionId) = some m) :
    (updateMissionStatus missions missionId stat now).find? (fun x => x.id == missionId)
      = some (applyMissionUpdates
          (stat == "in_progress" && !(jsTruthy m.actual_arrival)) stat now m) := by
  have he : (m.id == missionId) = true := by
    simpa using List.find?_some hfind
  have hp : ∀ a : RescueMission,
      ((if a.id == missionId
          then applyMissionUpdates
            (stat == "in_progress" && !(jsTruthy m.actual_arrival)) stat now a
          else a).id == missionId) = (a.id == missionId) := by
    intro a
    by_cases h : (a.id == missionId) = true <;> simp [h, applyMissionUpdates_id]
  have hmap := find?_map_pres (fun x => x.id == missionId)
      (fun a => if a.id == missionId
          then applyMissionUpdates
            (stat == "in_progress" && !(jsTruthy m.actual_arrival)) stat now a
          else a) hp missions m hfind
  simp only [he, if_true] at hmap
  simpa [updateMissionStatus, hfind, Option.bind] using hmap

/-- Fields of the updates record for an `in_progress` transition. -/
theorem applyMissionUpdates_inProgress (b : Bool) (now : String) (m : RescueMission) :
    (applyMissionUpdates b "in_progress" now m).actual_arrival
      = (if b then some now else m.actual_arrival)
    ∧ (applyMissionUpdates b "in_progress" now m).status = "in_progress" := by
  have hc : (("in_progress" : String) == "completed") = false := by decide
  unfold applyMissionUpdates
  by_cases hb : b = true <;> simp [hb, hc]

/-- Fields of the updates record for a `completed` transition. -/
theorem applyMissionUpdates_completed (b : Bool) (now : String) (m : RescueMission) :
    (applyMissionUpdates b "completed" now m).completion_time = some now
    ∧ (applyMissionUpdates b "completed" now m).status = "completed" := by
  have hc : (("completed" : String) == "completed") = true := by decide
  unfold applyMissionUpdates
  by_cases hb : b = true <;> simp [hb, hc]

/-! Claim theorems. -/

/-- Claim C10: the dashboard Active mission count equals the number of loaded
missions whose status is not `completed`; in particular a mission with the
terminal status `cancelled` is still counted as active. -/
theorem activeMissionCount_counts_non_completed
    (missions : List RescueMission) (m : RescueMission)
    (hm : m.status = "cancelled") :
    activeMissionCount missions
      = (missions.filter (fun x => x.status != "completed")).length
    ∧ activeMissionCount (m :: missions) = activeMissionCount missions + 1 := by
  refine ⟨rfl, ?_⟩
  have hne : (m.status != "completed") = true := by rw [hm]; decide
  simp [activeMissionCount, List.filter_cons, hne]

/-- Witness for C10: a concrete cancelled mission is counted as active. -/
theorem activeMissionCount_counts_non_completed_witness :
    activeMissionCount []
      = (List.filter (fun x => x.status != "completed")
          ([] : List RescueMission)).length
    ∧ activeMissionCount [wMCancelled] = activeMissionCount [] + 1 :=
  activeMissionCount_counts_non_completed [] wMCancelled (by decide)

/-- Claim C9: the admin role change first deletes every role row of the user
and then inserts the new role, so on a successful insert the user holds
exactly the single new role (rows of other users untouched), while a failed
insert after the delete leaves the user with no roles at all. -/
theorem updateUserRole_delete_then_insert
    (roles : List UserRole) (userId newRole newId now : String) :
    ((updateUserRole roles userId newRole newId now true).filter
        (fun r => r.user_id == userId)
      = [{ id := newId, user_id := userId, role := newRole, created_at := now }])
    ∧ ((updateUserRole roles userId newRole newId now true).filter
        (fun r => !(r.user_id == userId))
      = roles.filter (fun r => !(r.user_id == userId)))
    ∧ ((updateUserRole roles userId newRole newId now false).filter
        (fun r => r.user_id == userId) = [])
    ∧ (updateUserRole roles userId newRole newId now false
      = roles.filter (fun r => !(r.user_id == userId))) := by
  refine ⟨?_, ?_, ?_, rfl⟩ <;>
    simp [updateUserRole, List.filter_filter, List.filter_append]

/-- Witness for C9: the role change evaluated on a concrete role table, in
both the successful and the failed-insert case. -/
theorem updateUserRole_delete_then_insert_witness :
    ((updateUserRole [wRole1] "u9" "admin" "r2" "T1" true).filter
        (fun r => r.user_id == "u9")
      = [{ id := "r2", user_id := "u9", role := "admin", created_at := "T1" }])
    ∧ ((updateUserRole [wRole1] "u9" "admin" "r2" "T1" true).filter
        (fun r => !(r.user_id == "u9"))
      = List.filter (fun r => !(r.user_id == "u9")) [wRole1])
    ∧ ((updateUserRole [wRole1] "u9" "admin" "r2" "T1" false).filter
        (fun r => r.user_id == "u9") = [])
    ∧ (updateUserRole [wRole1] "u9" "admin" "r2" "T1" false
      = List.filter (fun r => !(r.user_id == "u9")) [wRole1]) :=
  updateUserRole_delete_then_insert [wRole1] "u9" "admin" "r2" "T1"

/-- Claim C6: a notes update changes only the `notes` and `updated_at`
fields of the addressed mission; status, arrival and completion stamps and
every other field stay unchanged, rows with a different id stay equal, and
no row is added or removed. -/
theorem addNotes_frame (missions : List RescueMission) (missionId notes now : String) :
    (addNotes missions missionId notes now).length = missions.length
    ∧ List.Forall₂ (fun m r =>
        r.status = m.status ∧ r.actual_arrival = m.actual_arrival
        ∧ r.completion_time = m.completion_time ∧ r.id = m.id
        ∧ r.emergency_request_id = m.emergency_request_id
        ∧ r.rescue_team_id = m.rescue_team_id ∧ r.assigned_by = m.assigned_by
        ∧ r.priority = m.priority ∧ r.estimated_arrival = m.estimated_arrival
        ∧ r.created_at = m.created_at
        ∧ ((m.id == missionId) = true → r.notes = some notes ∧ r.updated_at = now)
        ∧ ((m.id == missionId) = false → r = m))
      missions (addNotes missions missionId notes now) := by
  constructor
  · simp [addNotes]
  · rw [addNotes, List.forall₂_map_right_iff, List.forall₂_same]
    intro m _
    by_cases h : (m.id == missionId) = true
    · simp [h]
    · simp only [Bool.not_eq_true] at h
      simp [h]

/-- Witness for C6: the notes update evaluated on a concrete mission list. -/
theorem addNotes_frame_witness :
    (addNotes [wM1] "m1" "hello" "T2").length = [wM1].length
    ∧ List.Forall₂ (fun m r =>
        r.status = m.status ∧ r.actual_arrival = m.actual_arrival
        ∧ r.completion_time = m.completion_time ∧ r.id = m.id
        ∧ r.emergency_request_id = m.emergency_request_id
        ∧ r.rescue_team_id = m.rescue_team_id ∧ r.assigned_by = m.assigned_by
        ∧ r.priority = m.priority ∧ r.estimated_arrival = m.estimated_arrival
        ∧ r.created_at = m.created_at
        ∧ ((m.id == "m1") = true → r.notes = some "hello" ∧ r.updated_at = "T2")
        ∧ ((m.id == "m1") = false → r = m))
      [wM1] (addNotes [wM1] "m1" "hello" "T2") :=
  addNotes_frame [wM1] "m1" "hello" "T2"

/-- Claim C7: a team location report overwrites exactly `current_latitude`,
`current_longitude` and `updated_at` of the reporting team; status, name,
contact fields and every other column stay unchanged, other teams stay
equal, and no row is added, so only the last-known position is stored. -/
theorem updateTeamLocation_frame (teams : List RescueTeam) (teamId : String)
    (lat lng : Rat) (now : String) :
    (updateTeamLocation teams teamId lat lng now).length = teams.length
    ∧ List.Forall₂ (fun t r =>
        r.id = t.id ∧ r.user_id = t.user_id ∧ r.team_name = t.team_name
        ∧ r.specialization = t.specialization ∧ r.status = t.status
        ∧ r.contact_phone = t.contact_phone ∧ r.contact_email = t.contact_email
        ∧ r.created_at = t.created_at
        ∧ ((t.id == teamId) = true →
            r.current_latitude = some lat ∧ r.current_longitude = some lng
            ∧ r.updated_at = now)
        ∧ ((t.id == teamId) = false → r = t))
      teams (updateTeamLocation teams teamId lat lng now) := by
  constructor
  · simp [updateTeamLocation]
  · rw [updateTeamLocation, List.forall₂_map_right_iff, List.forall₂_same]
    intro t _
    by_cases h : (t.id == teamId) = true
    · simp [h]
    · simp only [Bool.not_eq_true] at h
      simp [h]

/-- Witness for C7: the location report evaluated on a concrete team list. -/
theorem updateTeamLocation_frame_witness :
    (updateTeamLocation [wTeam1] "t1" 10 10 "T2").length = [wTeam1].length
    ∧ List.Forall₂ (fun t r =>
        r.id = t.id ∧ r.user_id = t.user_id ∧ r.team_name = t.team_name
        ∧ r.specialization = t.specialization ∧ r.status = t.status
        ∧ r.contact_phone = t.contact_phone ∧ r.contact_email = t.contact_email
        ∧ r.created_at = t.created_at
        ∧ ((t.id == "t1") = true →
            r.current_latitude = some 10 ∧ r.current_longitude = some 10
            ∧ r.updated_at = "T2")
        ∧ ((t.id == "t1") = false → r = t))
      [wTeam1] (updateTeamLocation [wTeam1] "t1" 10 10 "T2") :=
  updateTeamLocation_frame [wTeam1] "t1" 10 10 "T2"

/-- Claim C3: the first transition of a mission to `in_progress` stamps
`actual_arrival` with the current time; a transition when the stamp is
already set (truthy) leaves it unchanged; and in particular a repeated
`in_progress` transition after the first one keeps the original timestamp. -/
theorem updateMissionStatus_arrival_idempotent
    (missions : List RescueMission) (missionId t1 t2 : String) (m : RescueMission)
    (hfind : missions.find? (fun x => x.id == missionId) = some m)
    (ht1 : t1 ≠ "") :
    (m.actual_arrival = none →
      ((updateMissionStatus missions missionId "in_progress" t1).find?
          (fun x => x.id == missionId)).map (fun x => x.actual_arrival)
        = some (some t1))
    ∧ (jsTruthy m.actual_arrival = true →
      ((updateMissionStatus missions missionId "in_progress" t1).find?
          (fun x => x.id == missionId)).map (fun x => x.actual_arrival)
        = some m.actual_arrival)
    ∧ (m.actual_arrival = none →
      ((updateMissionStatus (updateMissionStatus missions missionId "in_progress" t1)
            missionId "in_progress" t2).find?
          (fun x => x.id == missionId)).map (fun x => x.actual_arrival)
        = some (some t1)) := by
  refine ⟨?_, ?_, ?_⟩
  · intro hnone
    have h1 := updateMissionStatus_find?_eq missions missionId "in_progress" t1 m hfind
    have hc : (("in_progress" : String) == "in_progress"
        && !(jsTruthy m.actual_arrival)) = true := by
      rw [hnone]; decide
    rw [hc] at h1
    simp [h1, (applyMissionUpdates_inProgress true t1 m).1]
  · intro htruthy
    have h1 := updateMissionStatus_find?_eq missions missionId "in_progress" t1 m hfind
    have hc : (("in_progress" : String) == "in_progress"
        && !(jsTruthy m.actual_arrival)) = false := by
      rw [htruthy]; decide
    rw [hc] at h1
    simp [h1, (applyMissionUpdates_inProgress false t1 m).1]
  · intro hnone
    have h1 := updateMissionStatus_find?_eq missions missionId "in_progress" t1 m hfind
    have hc : (("in_progress" : String) == "in_progress"
        && !(jsTruthy m.actual_arrival)) = true := by
      rw [hnone]; decide
    rw [hc] at h1
    have harr : (applyMissionUpdates true "in_progress" t1 m).actual_arrival
        = some t1 := by
      simpa using (applyMissionUpdates_inProgress true t1 m).1
    have h2 := updateMissionStatus_find?_eq
      (updateMissionStatus missions missionId "in_progress" t1) missionId
      "in_progress" t2 (applyMissionUpdates true "in_progress" t1 m) h1
    have hc2 : (("in_progress" : String) == "in_progress"
        && !(jsTruthy (applyMissionUpdates true "in_progress" t1 m).actual_arrival))
        = false := by
      rw [harr]; simp [jsTruthy, ht1]
    rw [hc2] at h2
    have hkeep : (applyMissionUpdates false "in_progress" t2
        (applyMissionUpdates true "in_progress" t1 m)).actual_arrival
        = (applyMissionUpdates true "in_progress" t1 m).actual_arrival := by
      simpa using
        (applyMissionUpdates_inProgress false t2
          (applyMissionUpdates true "in_progress" t1 m)).1
    simp [h2, hkeep, harr]

/-- Witness for C3: the stamping behaviour evaluated on a concrete mission
with an unset arrival stamp. -/
theorem updateMissionStatus_arrival_idempotent_witness :
    (wM1.actual_arrival = none →
      ((updateMissionStatus [wM1] "m1" "in_progress" "TA").find?
          (fun x => x.id == "m1")).map (fun x => x.actual_arrival)
        = some (some "TA"))
    ∧ (jsTruthy wM1.actual_arrival = true →
      ((updateMissionStatus [wM1] "m1" "in_progress" "TA").find?
          (fun x => x.id == "m1")).map (fun x => x.actual_arrival)
        = some wM1.actual_arrival)
    ∧ (wM1.actual_arrival = none →
      ((updateMissionStatus (updateMissionStatus [wM1] "m1" "in_progress" "TA")
            "m1" "in_progress" "TB").find?
          (fun x => x.id == "m1")).map (fun x => x.actual_arrival)
        = some (some "TA")) :=
  updateMissionStatus_arrival_idempotent [wM1] "m1" "TA" "TB" wM1
    (by decide) (by decide)

/-- Claim C5: every transition of a mission to `completed` stamps
`completion_time` with the time of that call, with no idempotence guard, so
any previously stored completion time is overwritten. -/
theorem updateMissionStatus_completed_stamps
    (missions : List RescueMission) (missionId now : String) (m : RescueMission)
    (hfind : missions.find? (fun x => x.id == missionId) = some m) :
    ((updateMissionStatus missions missionId "completed" now).find?
        (fun x => x.id == missionId)).map (fun x => (x.completion_time, x.status))
      = some (some now, "completed") := by
  have h1 := updateMissionStatus_find?_eq missions missionId "completed" now m hfind
  have hc : (("completed" : String) == "in_progress") = false := by decide
  rw [hc, Bool.false_and] at h1
  simp [h1, (applyMissionUpdates_completed false now m).1,
    (applyMissionUpdates_completed false now m).2]

/-- Witness for C5: completing a mission that already carries the stamp
`OLD` overwrites it with the new call time. -/
theorem updateMissionStatus_completed_stamps_witness :
    ((updateMissionStatus [wM2] "m2" "completed" "T9").find?
        (fun x => x.id == "m2")).map (fun x => (x.completion_time, x.status))
      = some (some "T9", "completed") :=
  updateMissionStatus_completed_stamps [wM2] "m2" "T9" wM2 (by decide)

/-- Claim C2 counterexample: on a concrete state, the rescue-team transition
of mission `m1` to `in_progress` updates the mission row, yet the emergency
request the mission references keeps its old status `assigned` — the
claimed lockstep update of the EmergencyRequest does not happen. -/
theorem updateMissionStatusDB_no_lockstep_cex :
    ((updateMissionStatusDB cState "m1" "in_progress" "T1").missions.find?
        (fun m => m.id == "m1")).map (fun m => m.status) = some "in_progress"
    ∧ ((updateMissionStatusDB cState "m1" "in_progress" "T1").requests.find?
        (fun r => r.id == "e1")).map (fun r => r.status) = some "assigned"
    ∧ ¬ (((updateMissionStatusDB cState "m1" "in_progress" "T1").requests.find?
        (fun r => r.id == "e1")).map (fun r => r.status) = some "in_progress") := by
  decide

/-- Claim C2 amended: a mission status transition performed by the rescue
team writes only the `rescue_missions` table; the `emergency_requests` and
`rescue_teams` tables are left entirely unchanged.  The EmergencyRequest
status is updated only by the separate, manually triggered admin operation
`updateEmergencyStatus`, which sets exactly the given status and
`updated_at` on the addressed request. -/
theorem updateMissionStatusDB_mission_table_only
    (s : DBState) (missionId stat now : String)
    (requests : List EmergencyRequest) (eid stat2 now2 : String)
    (e : EmergencyRequest)
    (hfind : requests.find? (fun r => r.id == eid) = some e) :
    (updateMissionStatusDB s missionId stat now).requests = s.requests
    ∧ (updateMissionStatusDB s missionId stat now).teams = s.teams
    ∧ (updateEmergencyStatus requests eid stat2 now2).find? (fun r => r.id == eid)
        = some { e with status := stat2, updated_at := now2 } := by
  refine ⟨rfl, rfl, ?_⟩
  have he : (e.id == eid) = true := by
    simpa using List.find?_some hfind
  have hp : ∀ a : EmergencyRequest,
      ((if a.id == eid then { a with status := stat2, updated_at := now2 } else a).id
          == eid) = (a.id == eid) := by
    intro a
    by_cases h : (a.id == eid) = true <;> simp [h]
  have hmap := find?_map_pres (fun r => r.id == eid)
      (fun a => if a.id == eid then { a with status := stat2, updated_at := now2 } else a)
      hp requests e hfind
  simp only [he, if_true] at hmap
  simpa [updateEmergencyStatus] using hmap

/-- Witness for the amended C2: evaluated on the concrete state `cState`. -/
theorem updateMissionStatusDB_mission_table_only_witness :
    (updateMissionStatusDB cState "m1" "in_progress" "T1").requests = cState.requests
    ∧ (updateMissionStatusDB cState "m1" "in_progress" "T1").teams = cState.teams
    ∧ (updateEmergencyStatus [cE1] "e1" "in_progress" "T1").find?
        (fun r => r.id == "e1")
        = some { cE1 with status := "in_progress", updated_at := "T1" } :=
  updateMissionStatusDB_mission_table_only cState "m1" "in_progress" "T1"
    [cE1] "e1" "in_progress" "T1" cE1 (by decide)

/-- Claim C1: invoking the modelled assignment operation on a pending
emergency request either returns a team identifier, appends exactly one new
mission with status `assigned` referencing the request, and transitions the
request to `assigned`; or returns an empty result and leaves the whole state
unchanged, the request still `pending`. -/
theorem auto_assign_pending_dichotomy
    (now missionId eid : String) (s : DBState) (e : EmergencyRequest)
    (hfind : s.requests.find? (fun r => r.id == eid) = some e)
    (hpend : e.status = "pending") :
    (auto_assign_rescue_team now missionId eid s = (none, s))
    ∨ (∃ tid m,
        auto_assign_rescue_team now missionId eid s
          = (some tid,
             { requests := updateEmergencyStatus s.requests eid "assigned" now,
               teams := s.teams,
               missions := s.missions ++ [m] })
        ∧ m.status = "assigned" ∧ m.emergency_request_id = eid
        ∧ m.rescue_team_id = tid
        ∧ (updateEmergencyStatus s.requests eid "assigned" now).find?
            (fun r => r.id == eid)
          = some { e with status := "assigned", updated_at := now }) := by
  have hne : (e.status != "pending") = false := by rw [hpend]; decide
  rcases hpick : pickTeam e (s.teams.filter (fun t => t.status == "available"))
      with _ | t
  · left
    unfold auto_assign_rescue_team
    rw [hfind]
    simp [hne, hpick]
  · right
    refine ⟨t.id, newMission missionId eid t.id e.priority now, ?_, rfl, rfl, rfl, ?_⟩
    · unfold auto_assign_rescue_team
      rw [hfind]
      simp [hne, hpick]
    · have he : (e.id == eid) = true := by
        simpa using List.find?_some hfind
      have hp : ∀ a : EmergencyRequest,
          ((if a.id == eid then { a with status := "assigned", updated_at := now }
              else a).id == eid) = (a.id == eid) := by
        intro a
        by_cases h : (a.id == eid) = true <;> simp [h]
      have hmap := find?_map_pres (fun r => r.id == eid)
          (fun a => if a.id == eid then { a with status := "assigned", updated_at := now }
            else a) hp s.requests e hfind
      simp only [he, if_true] at hmap
      simpa [updateEmergencyStatus] using hmap

/-- Witness for C1: the dichotomy evaluated on the concrete state `wState`
with its pending request `wReq1`. -/
theorem auto_assign_pending_dichotomy_witness :
    (auto_assign_rescue_team "T" "m9" "e1" wState = (none, wState))
    ∨ (∃ tid m,
        auto_assign_rescue_team "T" "m9" "e1" wState
          = (some tid,
             { requests := updateEmergencyStatus wState.requests "e1" "assigned" "T",
               teams := wState.teams,
               missions := wState.missions ++ [m] })
        ∧ m.status = "assigned" ∧ m.emergency_request_id = "e1"
        ∧ m.rescue_team_id = tid
        ∧ (updateEmergencyStatus wState.requests "e1" "assigned" "T").find?
            (fun r => r.id == "e1")
          = some { wReq1 with status := "assigned", updated_at := "T" }) :=
  auto_assign_pending_dichotomy "T" "m9" "e1" wState wReq1 (by decide) (by decide)

/-- Claim C4: a team returned by the modelled assignment operation is one of
the stored teams and has status `available` at selection time. -/
theorem auto_assign_selects_only_available
    (now missionId eid : String) (s : DBState) (tid : String) (s2 : DBState)
    (h : auto_assign_rescue_team now missionId eid s = (some tid, s2)) :
    ∃ t ∈ s.teams, t.id = tid ∧ t.status = "available" := by
  unfold auto_assign_rescue_team at h
  rcases hfind : s.requests.find? (fun r => r.id == eid) with _ | e
  · rw [hfind] at h
    simp at h
  · rw [hfind] at h
    dsimp only at h
    by_cases hpend : (e.status != "pending") = true
    · rw [if_pos hpend] at h
      simp at h
    · rw [if_neg hpend] at h
      rcases hpick : pickTeam e (s.teams.filter (fun t => t.status == "available"))
          with _ | t
      · rw [hpick] at h
        simp at h
      · rw [hpick] at h
        dsimp only at h
        have htid : t.id = tid := by
          simpa using congrArg Prod.fst h
        have hmem := pickTeam_mem e _ t hpick
        have hm2 := List.mem_filter.mp hmem
        exact ⟨t, hm2.1, htid, by simpa using hm2.2⟩

/-- Witness for C4: the assignment on `wState` returns team `t1`, which is
stored and available. -/
theorem auto_assign_selects_only_available_witness :
    ∃ t ∈ wState.teams, t.id = "t1" ∧ t.status = "available" :=
  auto_assign_selects_only_available "T" "m9" "e1" wState "t1" wAssigned (by decide)

/-- Claim C8: the post-sign-in role verification polls the `user_roles`
store at most 3 times — its result is fully determined by the outcomes of
attempts 0, 1 and 2: it returns `true` as soon as any attempt observes a
row with role `admin` (errors of earlier attempts are swallowed), it
returns `false` when the attempts finish without observing such a row and
the final attempt completed, and it propagates an error exactly when the
final attempt fails without an earlier attempt having observed the role. -/
theorem checkAdminRoleWithRetry_closed_form
    (outcomes : Nat → Except Unit (List String)) :
    checkAdminRoleWithRetry outcomes =
      (if oksAdmin (outcomes 0) || oksAdmin (outcomes 1) || oksAdmin (outcomes 2)
       then Except.ok true
       else match outcomes 2 with
            | Except.error e => Except.error e
            | Except.ok _ => Except.ok false) := by
  unfold checkAdminRoleWithRetry
  rcases h0 : outcomes 0 with e0 | r0 <;>
    rcases h1 : outcomes 1 with e1 | r1 <;>
      rcases h2 : outcomes 2 with e2 | r2 <;>
        simp [checkAdminLoop, h0, h1, h2, oksAdmin]
  all_goals (split_ifs <;> simp_all)

end DroneX
